import Mathlib

/-!
Verification of the bezier_mesh road-mesh generator (src/src/main.rs).

The program extrudes a fixed 8-vertex road profile along a cubic Bezier
curve.  We shallowly embed the relevant Rust/bevy code:

- glam vector arithmetic (Vec3, lerp, cross, normalize) over the reals;
- cubic_bezier (main.rs:391-398), the De Casteljau evaluation;
- the vertex pipeline shared by setup (main.rs:116-148) and build_mesh
  (main.rs:198-253);
- the fixed triangle index list (main.rs:164 and 269);
- bevy Mesh construction: insert_attribute of positions, set_indices,
  duplicate_vertices, compute_flat_normals (main.rs:166-171, 271-276)
  and asset/entity publication (meshes.add + commands.spawn,
  main.rs:171-180 and 276-285);
- the control-point query pipeline sorted_by_key + tuples + last
  (main.rs:190-196).

f32 arithmetic is idealised as real arithmetic.  The world model tracks
the mesh asset store and the renderable road-mesh entities; light,
camera, control-point spheres and the per-vertex debug spheres are
further entities the code spawns, omitted here because no claim depends
on them (they only ever add entities).
-/

/-- Shallow embedding of glam Vec3 with real components (f32 idealised). -/
@[ext]
structure Vec3 where
  x : ℝ
  y : ℝ
  z : ℝ

namespace Vec3

def add (a b : Vec3) : Vec3 := ⟨a.x + b.x, a.y + b.y, a.z + b.z⟩

def sub (a b : Vec3) : Vec3 := ⟨a.x - b.x, a.y - b.y, a.z - b.z⟩

/-- Scalar multiplication, glam `f32 * Vec3`. -/
def smul (s : ℝ) (v : Vec3) : Vec3 := ⟨s * v.x, s * v.y, s * v.z⟩

instance : Add Vec3 := ⟨add⟩

instance : Sub Vec3 := ⟨sub⟩

instance : Zero Vec3 := ⟨⟨0, 0, 0⟩⟩

/-- glam `Vec3::lerp(self, rhs, s) = self + (rhs - self) * s`. -/
def lerp (a b : Vec3) (t : ℝ) : Vec3 := a + smul t (b - a)

/-- glam `Vec3::dot`. -/
def dot (a b : Vec3) : ℝ := a.x * b.x + a.y * b.y + a.z * b.z

/-- glam `Vec3::cross` (right-handed). -/
def cross (a b : Vec3) : Vec3 :=
  ⟨a.y * b.z - a.z * b.y, a.z * b.x - a.x * b.z, a.x * b.y - a.y * b.x⟩

/-- glam `Vec3::length`: the Euclidean norm. -/
noncomputable def norm (v : Vec3) : ℝ := Real.sqrt (dot v v)

/-- glam `Vec3::normalize`: `self * length.recip()`. -/
noncomputable def normalize (v : Vec3) : Vec3 := smul (norm v)⁻¹ v

/-- glam `Vec3::Y`, the world up axis used by the program. -/
def Y : Vec3 := ⟨0, 1, 0⟩

end Vec3

/-- main.rs:391-398, `cubic_bezier`: De Casteljau evaluation of the cubic
Bezier segment through four control points. -/
def cubic_bezier (a b c d : Vec3) (t : ℝ) : Vec3 :=
  let ab := a.lerp b t
  let bc := b.lerp c t
  let cd := c.lerp d t
  let abbc := ab.lerp bc t
  let bccd := bc.lerp cd t
  abbc.lerp bccd t

/-- The hand-authored road cross-section profile: the eight local vertices of
one slice (main.rs:121-130 in setup, identically main.rs:214-223 in
build_mesh). -/
def local_vertices : List Vec3 :=
  [⟨-0.5, 0.3, 0⟩, ⟨-0.3, 0.3, 0⟩, ⟨-0.2, 0.2, 0⟩, ⟨0.2, 0.2, 0⟩,
   ⟨0.3, 0.3, 0⟩, ⟨0.5, 0.3, 0⟩, ⟨0.5, 0, 0⟩, ⟨-0.5, 0, 0⟩]

/-- The backward central difference the code uses as the curve-aligned local z
axis: normalize(point(t - 0.01) - point(t + 0.01)) (main.rs:133-136 and
main.rs:226-241). -/
noncomputable def frame_local_z (p1 p2 p3 p4 : Vec3) (t : ℝ) : Vec3 :=
  Vec3.normalize (cubic_bezier p1 p2 p3 p4 (t - 0.01) - cubic_bezier p1 p2 p3 p4 (t + 0.01))

/-- The local x axis: normalize(cross(Y, local_z)) (main.rs:138 and 243). -/
noncomputable def frame_local_x (p1 p2 p3 p4 : Vec3) (t : ℝ) : Vec3 :=
  Vec3.normalize (Vec3.cross Vec3.Y (frame_local_z p1 p2 p3 p4 t))

/-- One world-space vertex: curve point plus the local vertex expressed in the
per-sample basis (main.rs:140-145 and 244-250). -/
noncomputable def world_vertex (p1 p2 p3 p4 : Vec3) (t : ℝ) (lv : Vec3) : Vec3 :=
  cubic_bezier p1 p2 p3 p4 t +
    Vec3.smul lv.x (frame_local_x p1 p2 p3 p4 t) +
    Vec3.smul lv.y Vec3.Y +
    Vec3.smul lv.z (frame_local_z p1 p2 p3 p4 t)

/-- The vertex buffer built by build_mesh (main.rs:198-253): for i in
0..=detail, sample t = i / detail and emit the eight profile vertices mapped
into world space. -/
noncomputable def buildVertices (p1 p2 p3 p4 : Vec3) (detail : ℕ) : List Vec3 :=
  (List.range (detail + 1)).flatMap (fun i =>
    let t : ℝ := (i : ℝ) / (detail : ℝ)
    local_vertices.map (fun lv => world_vertex p1 p2 p3 p4 t lv))

/-- The fixed control points created by setup (main.rs:90-92):
(0,0,0), (3,0,0), (6,0,0), (9,0,0). -/
def setup_control_points : List Vec3 :=
  (List.range 4).map (fun i => ⟨(i : ℝ) * 3.0, 0, 0⟩)

/-- The vertex buffer built inline by setup (main.rs:112-148): identical
pipeline to build_mesh but over the four freshly created control points. -/
noncomputable def setupVertices (detail : ℕ) : List Vec3 :=
  let p1 := setup_control_points.getD 0 0
  let p2 := setup_control_points.getD 1 0
  let p3 := setup_control_points.getD 2 0
  let p4 := setup_control_points.getD 3 0
  (List.range (detail + 1)).flatMap (fun i =>
    let t : ℝ := (i : ℝ) / (detail : ℝ)
    local_vertices.map (fun lv => world_vertex p1 p2 p3 p4 t lv))

/-- The index buffer: a fixed twelve-entry list of u32 indices (four
triangles), the same constant in setup (main.rs:164) and build_mesh
(main.rs:269); it does not depend on detail. -/
def triangles : List ℕ := [0, 8, 15, 0, 15, 7, 0, 9, 8, 0, 1, 9]

/-- Model of a bevy Mesh: optional parallel vertex attributes and an optional
index buffer.  The program only ever touches position, normal, uv and the
indices. -/
structure MeshData where
  position : List Vec3
  normal : Option (List Vec3)
  uv : Option (List (ℝ × ℝ))
  indices : Option (List ℕ)

/-- bevy `Mesh::duplicate_vertices`: gather every vertex attribute through the
index buffer and drop the indices.  bevy indexes the attribute arrays
directly; `getD` with a zero default models that total (all indices used by
the program are in range). -/
def duplicateVertices (m : MeshData) : MeshData :=
  match m.indices with
  | none => m
  | some idx =>
    { position := idx.map (fun i => m.position.getD i 0)
      normal := m.normal.map (fun ns => idx.map (fun i => ns.getD i 0))
      uv := m.uv.map (fun us => idx.map (fun i => us.getD i (0, 0)))
      indices := none }

/-- bevy flat normals: for each chunk of three positions, the normalized cross
product (b - a) x (c - a), repeated for the three vertices; a trailing chunk
of fewer than three vertices is dropped. -/
noncomputable def flatNormals : List Vec3 → List Vec3
  | a :: b :: c :: rest =>
    Vec3.normalize (Vec3.cross (b - a) (c - a)) ::
      Vec3.normalize (Vec3.cross (b - a) (c - a)) ::
        Vec3.normalize (Vec3.cross (b - a) (c - a)) :: flatNormals rest
  | _ => []

/-- bevy `Mesh::compute_flat_normals`: set the normal attribute from the
position chunks.  The program only calls it after duplicate_vertices, when
the mesh is non-indexed (bevy asserts this). -/
noncomputable def computeFlatNormals (m : MeshData) : MeshData :=
  { m with normal := some (flatNormals m.position) }

/-- The mesh value build_mesh publishes (main.rs:271-275): a fresh mesh with
the position attribute inserted, the fixed indices set, vertices duplicated
and flat normals computed.  No uv attribute is ever inserted. -/
noncomputable def meshAfterBuild (p1 p2 p3 p4 : Vec3) (detail : ℕ) : MeshData :=
  computeFlatNormals (duplicateVertices
    { position := buildVertices p1 p2 p3 p4 detail
      normal := none
      uv := none
      indices := some triangles })

/-- The mesh value setup publishes (main.rs:166-170), same construction over
the setup vertex buffer. -/
noncomputable def meshAfterSetup (detail : ℕ) : MeshData :=
  computeFlatNormals (duplicateVertices
    { position := setupVertices detail
      normal := none
      uv := none
      indices := some triangles })

/-- World model: the mesh asset store (meshes: ResMut of Assets of Mesh) and
the renderable road-mesh entities, each holding the handle (index into the
asset store) it was spawned with. -/
structure World where
  meshes : List MeshData
  roadEntities : List ℕ

/-- meshes.add(mesh) followed by commands.spawn(PbrBundle with that handle)
(main.rs:171-180 and 276-285): a fresh asset is appended (its handle is the
new index) and a fresh renderable entity referencing it is spawned. -/
def World.publish (w : World) (m : MeshData) : World :=
  { meshes := w.meshes ++ [m], roadEntities := w.roadEntities ++ [w.meshes.length] }

def emptyWorld : World := ⟨[], []⟩

/-- itertools `tuples::<(_,_,_,_)>()`: consecutive non-overlapping 4-tuples;
a trailing group of fewer than four elements is dropped. -/
def tuples4 {α : Type} : List α → List (α × α × α × α)
  | a :: b :: c :: d :: rest => (a, b, c, d) :: tuples4 rest
  | _ => []

/-- itertools `sorted_by_key(|(p, _)| p.0)`: stable sort of the control-point
query results by the stable ControlPoint index. -/
def sortByIndex (pts : List (ℕ × Vec3)) : List (ℕ × Vec3) :=
  List.insertionSort (fun p q => p.1 ≤ q.1) pts

/-- main.rs:190-196: sort the control points by index, group into 4-tuples and
take the last group; none when fewer than four control points exist. -/
def selectQuad (pts : List (ℕ × Vec3)) :
    Option ((ℕ × Vec3) × (ℕ × Vec3) × (ℕ × Vec3) × (ℕ × Vec3)) :=
  (tuples4 (sortByIndex pts)).getLast?

/-- The build_mesh system (main.rs:183-287) acting on the world model: if the
control-point query yields a 4-tuple, build the mesh from the four transforms
and publish it as a fresh asset and entity; otherwise do nothing. -/
noncomputable def build_mesh (w : World) (pts : List (ℕ × Vec3)) (detail : ℕ) : World :=
  match selectQuad pts with
  | none => w
  | some (q1, q2, q3, q4) => w.publish (meshAfterBuild q1.2 q2.2 q3.2 q4.2 detail)

/-- The mesh-publishing tail of the setup startup system (main.rs:166-180). -/
noncomputable def setup (w : World) (detail : ℕ) : World :=
  w.publish (meshAfterSetup detail)

/-- The ControlPoint entities setup spawns (main.rs:95-110): index i at
position (i * 3, 0, 0), exactly the snapshot build_mesh queries afterwards. -/
def startup_points : List (ℕ × Vec3) :=
  (List.range 4).map (fun i => (i, ⟨(i : ℝ) * 3.0, 0, 0⟩))

/-- Scenario control points of spec section 8, Scenario A (identical to the
setup positions): colinear along the x axis. -/
def cpA0 : Vec3 := ⟨0, 0, 0⟩

def cpA1 : Vec3 := ⟨3, 0, 0⟩

def cpA2 : Vec3 := ⟨6, 0, 0⟩

def cpA3 : Vec3 := ⟨9, 0, 0⟩

/-- A climbing straight line used to refute full orthonormality of the frame:
control points colinear along the direction (0, 1, 1). -/
def cpB0 : Vec3 := ⟨0, 0, 0⟩

def cpB1 : Vec3 := ⟨0, 1, 1⟩

def cpB2 : Vec3 := ⟨0, 2, 2⟩

def cpB3 : Vec3 := ⟨0, 3, 3⟩

/-- A control-point snapshot with only three points, as in spec Scenario B. -/
def three_points : List (ℕ × Vec3) :=
  [(0, ⟨0, 0, 0⟩), (1, ⟨3, 0, 0⟩), (2, ⟨6, 0, 0⟩)]

namespace Vec3

@[simp] theorem add_x (a b : Vec3) : (a + b).x = a.x + b.x := rfl

@[simp] theorem add_y (a b : Vec3) : (a + b).y = a.y + b.y := rfl

@[simp] theorem add_z (a b : Vec3) : (a + b).z = a.z + b.z := rfl

@[simp] theorem sub_x (a b : Vec3) : (a - b).x = a.x - b.x := rfl

@[simp] theorem sub_y (a b : Vec3) : (a - b).y = a.y - b.y := rfl

@[simp] theorem sub_z (a b : Vec3) : (a - b).z = a.z - b.z := rfl

@[simp] theorem smul_x (s : ℝ) (v : Vec3) : (smul s v).x = s * v.x := rfl

@[simp] theorem smul_y (s : ℝ) (v : Vec3) : (smul s v).y = s * v.y := rfl

@[simp] theorem smul_z (s : ℝ) (v : Vec3) : (smul s v).z = s * v.z := rfl

@[simp] theorem zero_x : (0 : Vec3).x = 0 := rfl

@[simp] theorem zero_y : (0 : Vec3).y = 0 := rfl

@[simp] theorem zero_z : (0 : Vec3).z = 0 := rfl

theorem dot_self_nonneg (v : Vec3) : 0 ≤ dot v v := by
  have h : dot v v = v.x ^ 2 + v.y ^ 2 + v.z ^ 2 := by unfold dot; ring
  rw [h]; positivity

theorem dot_self_pos (v : Vec3) (h : v ≠ 0) : 0 < dot v v := by
  rcases lt_or_eq_of_le (dot_self_nonneg v) with hlt | heq
  · exact hlt
  · exfalso
    apply h
    have hx : v.x = 0 := by unfold dot at heq; nlinarith [sq_nonneg v.x, sq_nonneg v.y, sq_nonneg v.z]
    have hy : v.y = 0 := by unfold dot at heq; nlinarith [sq_nonneg v.x, sq_nonneg v.y, sq_nonneg v.z]
    have hz : v.z = 0 := by unfold dot at heq; nlinarith [sq_nonneg v.x, sq_nonneg v.y, sq_nonneg v.z]
    ext <;> simp [hx, hy, hz]

theorem norm_pos (v : Vec3) (h : v ≠ 0) : 0 < norm v :=
  Real.sqrt_pos.mpr (dot_self_pos v h)

theorem sq_norm (v : Vec3) : norm v * norm v = dot v v :=
  Real.mul_self_sqrt (dot_self_nonneg v)

theorem dot_smul_left (s : ℝ) (a b : Vec3) : dot (smul s a) b = s * dot a b := by
  simp [dot, smul]; ring

theorem dot_smul_right (s : ℝ) (a b : Vec3) : dot a (smul s b) = s * dot a b := by
  simp [dot, smul]; ring

theorem cross_smul_right (s : ℝ) (a b : Vec3) : cross a (smul s b) = smul s (cross a b) := by
  ext <;> simp [cross, smul] <;> ring

theorem smul_eq_zero_iff (s : ℝ) (v : Vec3) (hs : s ≠ 0) : smul s v = 0 ↔ v = 0 := by
  constructor
  · intro h
    have hx := congrArg Vec3.x h
    have hy := congrArg Vec3.y h
    have hz := congrArg Vec3.z h
    simp [smul] at hx hy hz
    ext <;> simp [hx.resolve_left hs, hy.resolve_left hs, hz.resolve_left hs]
  · intro h; subst h; ext <;> simp [smul]

theorem dot_cross_left (a b : Vec3) : dot (cross a b) a = 0 := by
  simp [dot, cross]; ring

theorem dot_cross_right (a b : Vec3) : dot (cross a b) b = 0 := by
  simp [dot, cross]; ring

/-- A normalized nonzero vector has unit dot product with itself. -/
theorem dot_normalize_self (v : Vec3) (h : v ≠ 0) : dot (normalize v) (normalize v) = 1 := by
  have hpos := dot_self_pos v h
  unfold normalize
  rw [dot_smul_left, dot_smul_right, ← mul_assoc, ← mul_inv, sq_norm]
  exact inv_mul_cancel₀ (ne_of_gt hpos)

/-- A normalized nonzero vector has unit length. -/
theorem norm_normalize (v : Vec3) (h : v ≠ 0) : norm (normalize v) = 1 := by
  unfold norm
  rw [dot_normalize_self v h, Real.sqrt_one]

theorem dot_normalize_left (v w : Vec3) : dot (normalize v) w = (norm v)⁻¹ * dot v w :=
  dot_smul_left _ v w

theorem sub_eq_zero_iff (a b : Vec3) : a - b = 0 ↔ a = b := by
  constructor
  · intro h
    have hx := congrArg Vec3.x h
    have hy := congrArg Vec3.y h
    have hz := congrArg Vec3.z h
    simp at hx hy hz
    ext
    · exact sub_eq_zero.mp hx
    · exact sub_eq_zero.mp hy
    · exact sub_eq_zero.mp hz
  · intro h; subst h; ext <;> simp

end Vec3

/-- The vertex buffer has one ring of 8 vertices per sample and detail + 1
samples. -/
theorem buildVertices_length (p1 p2 p3 p4 : Vec3) (detail : ℕ) :
    (buildVertices p1 p2 p3 p4 detail).length = (detail + 1) * 8 := by
  unfold buildVertices
  rw [List.length_flatMap, Function.comp_def]
  simp [local_vertices, List.sum_replicate, List.map_const, mul_comm]

/-- Claim C9: the cubic Bezier evaluation with all four control points equal
returns that point for every parameter t, including t outside the unit
interval (constant curve). -/
theorem cubic_bezier_const (a : Vec3) (t : ℝ) : cubic_bezier a a a a t = a := by
  ext <;> simp [cubic_bezier, Vec3.lerp]

/-- itertools tuples drops everything when fewer than four elements exist. -/
theorem tuples4_eq_nil {α : Type} (l : List α) (h : l.length < 4) : tuples4 l = [] := by
  match l with
  | [] => rfl
  | [a] => rfl
  | [a, b] => rfl
  | [a, b, c] => rfl
  | a :: b :: c :: d :: rest =>
    simp only [List.length_cons] at h
    omega

/-- Claim C8 (confirmed): when fewer than 4 control points are available, the
build_mesh system does nothing this tick: no vertices or indices are
generated and no mesh asset or entity is produced or updated. -/
theorem c8_insufficient_points_skips (w : World) (pts : List (ℕ × Vec3)) (detail : ℕ)
    (h : pts.length < 4) : build_mesh w pts detail = w := by
  have hlen : (sortByIndex pts).length < 4 := by
    rw [sortByIndex, List.length_insertionSort]; exact h
  have htup : tuples4 (sortByIndex pts) = [] := tuples4_eq_nil _ hlen
  simp [build_mesh, selectQuad, htup]

/-- Witness for C8 at a concrete three-point snapshot. -/
theorem c8_witness : build_mesh emptyWorld three_points 20 = emptyWorld :=
  c8_insufficient_points_skips emptyWorld three_points 20 (by simp [three_points])

/-- Claim C10 (confirmed): the vertex pipeline duplicated in setup and in
build_mesh produces identical vertex sequences on the same control points and
detail: same 0..=detail sampling at t = i / detail, same De Casteljau
evaluation, same epsilon 0.01 central-difference frame, same eight-entry
profile. -/
theorem c10_setup_matches_build (detail : ℕ) :
    setupVertices detail = buildVertices cpA0 cpA1 cpA2 cpA3 detail := by
  have h : setup_control_points = [cpA0, cpA1, cpA2, cpA3] := by
    simp [setup_control_points, List.range_succ, cpA0, cpA1, cpA2, cpA3, Vec3.mk.injEq]
    norm_num
  unfold setupVertices buildVertices
  rw [h]
  rfl

/-- Counterexample to claim C1 as stated: at detail = 2 the vertex buffer has
24 vertices, not detail * 8 = 16 — the code samples detail + 1 parameters. -/
theorem c1_counterexample :
    (buildVertices cpA0 cpA1 cpA2 cpA3 2).length = 24 ∧ (24 : ℕ) ≠ 2 * 8 := by
  constructor
  · rw [buildVertices_length]
  · decide

/-- Claim C1 as amended: for every detail ≥ 2 and all control points, the mesh
build samples detail + 1 parameters t = i / detail for i in 0..=detail, so
the vertex buffer has length (detail + 1) * 8. -/
theorem c1_vertex_buffer_length (p1 p2 p3 p4 : Vec3) (detail : ℕ) (_h : 2 ≤ detail) :
    (buildVertices p1 p2 p3 p4 detail).length = (detail + 1) * 8 :=
  buildVertices_length p1 p2 p3 p4 detail

/-- Witness for the amended C1 at detail = 5. -/
theorem c1_witness : (buildVertices cpA0 cpA1 cpA2 cpA3 5).length = (5 + 1) * 8 :=
  c1_vertex_buffer_length cpA0 cpA1 cpA2 cpA3 5 (by norm_num)

/-- Counterexample to claim C2 as stated: the index buffer always has length
12; at detail = 20 the claimed length (detail - 1) * triangles_per_segment * 3
with the four-triangle template is 228. -/
theorem c2_counterexample : triangles.length = 12 ∧ (12 : ℕ) ≠ (20 - 1) * (4 * 3) := by
  constructor
  · rfl
  · decide

/-- Claim C2 as amended: the emitted index buffer is the fixed twelve-entry
template stitching only the first ring pair; its length is 12 independent of
detail, and for every detail ≥ 1 every index is below the vertex count. -/
theorem c2_fixed_index_buffer (p1 p2 p3 p4 : Vec3) (detail : ℕ) (h : 1 ≤ detail) :
    triangles.length = 12 ∧
    ∀ j ∈ triangles, j < (buildVertices p1 p2 p3 p4 detail).length := by
  refine ⟨rfl, ?_⟩
  intro j hj
  rw [buildVertices_length]
  have h16 : 16 ≤ (detail + 1) * 8 := by nlinarith
  have hj15 : j ≤ 15 := by
    simp [triangles] at hj
    omega
  omega

/-- Witness for the amended C2 at detail = 2. -/
theorem c2_witness :
    triangles.length = 12 ∧
    ∀ j ∈ triangles, j < (buildVertices cpA0 cpA1 cpA2 cpA3 2).length :=
  c2_fixed_index_buffer cpA0 cpA1 cpA2 cpA3 2 (by norm_num)

/-- Counterexample to claim C4 as stated: a build with detail = 1 is not
rejected — the full pipeline runs, producing a 16-vertex buffer and
publishing a mesh entity. -/
theorem c4_counterexample :
    (buildVertices cpA0 cpA1 cpA2 cpA3 1).length = 16 ∧
    (build_mesh emptyWorld startup_points 1).roadEntities.length = 1 := by
  constructor
  · rw [buildVertices_length]
  · rfl

/-- Claim C4 as amended: detail is never validated; with detail = 1 the build
produces a 2-ring vertex buffer and publishes a mesh exactly as for any other
detail value. -/
theorem c4_detail_not_validated (p1 p2 p3 p4 : Vec3) (w : World) (pts : List (ℕ × Vec3))
    (h : (selectQuad pts).isSome = true) :
    (buildVertices p1 p2 p3 p4 1).length = 2 * 8 ∧
    (build_mesh w pts 1).roadEntities.length = w.roadEntities.length + 1 := by
  constructor
  · rw [buildVertices_length]
  · obtain ⟨⟨q1, q2, q3, q4⟩, hq⟩ := Option.isSome_iff_exists.mp h
    simp only [build_mesh, hq]
    simp [World.publish]

/-- Witness for the amended C4 on the startup control points. -/
theorem c4_witness :
    (buildVertices cpA0 cpA1 cpA2 cpA3 1).length = 2 * 8 ∧
    (build_mesh emptyWorld startup_points 1).roadEntities.length =
      emptyWorld.roadEntities.length + 1 :=
  c4_detail_not_validated cpA0 cpA1 cpA2 cpA3 emptyWorld startup_points rfl

/-- Counterexample to claim C3 as stated: startup runs setup then build_mesh
(chained); the first system already publishes a road mesh, and build_mesh then
allocates a second asset and spawns a second renderable entity — two live
artifacts under two distinct handles, nothing overwritten in place. -/
theorem c3_counterexample :
    (build_mesh (setup emptyWorld 20) startup_points 20).roadEntities = [0, 1] ∧
    (0 : ℕ) ≠ 1 := by
  constructor
  · rfl
  · decide

/-- Claim C3 as amended: recomputation never reuses a handle — every
successful build_mesh invocation appends a fresh mesh asset and spawns one
more renderable entity, so n recomputations grow the entity count by n. -/
theorem c3_each_build_adds_artifact (pts : List (ℕ × Vec3)) (detail : ℕ)
    (h : (selectQuad pts).isSome = true) (n : ℕ) (w : World) :
    ((fun w => build_mesh w pts detail)^[n] w).roadEntities.length =
      w.roadEntities.length + n := by
  induction n generalizing w with
  | zero => simp
  | succ n ih =>
    have hstep : ∀ w' : World,
        (build_mesh w' pts detail).roadEntities.length = w'.roadEntities.length + 1 := by
      intro w'
      obtain ⟨⟨q1, q2, q3, q4⟩, hq⟩ := Option.isSome_iff_exists.mp h
      simp only [build_mesh, hq]
      simp [World.publish]
    rw [Function.iterate_succ_apply, ih, hstep]
    omega

/-- Witness for the amended C3: two recomputations over the startup control
points add two artifacts. -/
theorem c3_witness :
    ((fun w => build_mesh w startup_points 20)^[2] emptyWorld).roadEntities.length =
      emptyWorld.roadEntities.length + 2 :=
  c3_each_build_adds_artifact startup_points 20 rfl 2 emptyWorld

/-- Counterexample to claim C7 as stated: the published mesh carries no uv
attribute at all — uv = (profile_u, t) is never assigned. -/
theorem c7_counterexample : (meshAfterBuild cpA0 cpA1 cpA2 cpA3 20).uv = none := rfl

/-- Claim C7 as amended: the published mesh has no uv attribute; it exposes
two parallel arrays, position and flat normals, of equal length. -/
theorem c7_no_uv_and_parallel_normals (p1 p2 p3 p4 : Vec3) (detail : ℕ) :
    (meshAfterBuild p1 p2 p3 p4 detail).uv = none ∧
    ∃ ns, (meshAfterBuild p1 p2 p3 p4 detail).normal = some ns ∧
      ns.length = (meshAfterBuild p1 p2 p3 p4 detail).position.length :=
  ⟨rfl, _, rfl, rfl⟩

/-- With the setup control points 0, 3, 6, 9 on the x axis the curve is the
linearly parametrised segment (9t, 0, 0). -/
theorem bezierA_eval (s : ℝ) : cubic_bezier cpA0 cpA1 cpA2 cpA3 s = ⟨9 * s, 0, 0⟩ := by
  ext <;> simp [cubic_bezier, Vec3.lerp, cpA0, cpA1, cpA2, cpA3] <;> ring

/-- On the colinear x-axis spline the central-difference local z axis is the
constant (-1, 0, 0): the difference point(t - 0.01) - point(t + 0.01) points
backwards along the curve. -/
theorem frameA_tangent (t : ℝ) : frame_local_z cpA0 cpA1 cpA2 cpA3 t = ⟨-1, 0, 0⟩ := by
  unfold frame_local_z
  have hdiff : cubic_bezier cpA0 cpA1 cpA2 cpA3 (t - 0.01) -
      cubic_bezier cpA0 cpA1 cpA2 cpA3 (t + 0.01) = ⟨-0.18, 0, 0⟩ := by
    rw [bezierA_eval, bezierA_eval]
    ext <;> simp <;> ring_nf
  rw [hdiff]
  unfold Vec3.normalize Vec3.norm
  have hdot : Vec3.dot ⟨-0.18, 0, 0⟩ ⟨-0.18, 0, 0⟩ = 0.0324 := by
    simp [Vec3.dot]; norm_num
  rw [hdot]
  have hsqrt : Real.sqrt 0.0324 = 0.18 := by
    rw [show (0.0324 : ℝ) = 0.18 ^ 2 by norm_num, Real.sqrt_sq (by norm_num)]
  rw [hsqrt]
  ext <;> simp [Vec3.smul] <;> norm_num

/-- Counterexample to claim C5 as stated: at the first sample (t = 0/20) the
frame tangent is (-1, 0, 0), not (1, 0, 0). -/
theorem c5_counterexample :
    frame_local_z cpA0 cpA1 cpA2 cpA3 ((0 : ℝ) / 20) ≠ ⟨1, 0, 0⟩ := by
  rw [frameA_tangent]
  intro hcontra
  have hx := congrArg Vec3.x hcontra
  norm_num at hx

/-- Claim C5 as amended: with the colinear control points of Scenario A and
detail = 20, every per-sample frame tangent (the local z axis) equals
(-1, 0, 0) — the central difference is taken backwards. -/
theorem c5_tangent_negative_x (i : ℕ) (_h : i ≤ 20) :
    frame_local_z cpA0 cpA1 cpA2 cpA3 ((i : ℝ) / 20) = ⟨-1, 0, 0⟩ :=
  frameA_tangent _

/-- Witness for the amended C5 at sample i = 0. -/
theorem c5_witness :
    frame_local_z cpA0 cpA1 cpA2 cpA3 (((0 : ℕ) : ℝ) / 20) = ⟨-1, 0, 0⟩ :=
  c5_tangent_negative_x 0 (by norm_num)

/-- With control points 0, (0,1,1), (0,2,2), (0,3,3) the curve is the
linearly parametrised climbing segment (0, 3t, 3t). -/
theorem bezierB_eval (s : ℝ) : cubic_bezier cpB0 cpB1 cpB2 cpB3 s = ⟨0, 3 * s, 3 * s⟩ := by
  ext <;> simp [cubic_bezier, Vec3.lerp, cpB0, cpB1, cpB2, cpB3] <;> ring

/-- Counterexample to claim C6 as stated: on the climbing straight spline at
t = 0.5 both hypotheses hold (the difference of the two curve samples is
nonzero and the tangent is not parallel to world up), yet up and tangent are
not orthogonal — the triple (right, up, tangent) is not orthonormal. -/
theorem c6_counterexample :
    (cubic_bezier cpB0 cpB1 cpB2 cpB3 (0.5 - 0.01) ≠
      cubic_bezier cpB0 cpB1 cpB2 cpB3 (0.5 + 0.01)) ∧
    (Vec3.cross Vec3.Y (cubic_bezier cpB0 cpB1 cpB2 cpB3 (0.5 - 0.01) -
      cubic_bezier cpB0 cpB1 cpB2 cpB3 (0.5 + 0.01)) ≠ 0) ∧
    Vec3.dot Vec3.Y (frame_local_z cpB0 cpB1 cpB2 cpB3 0.5) ≠ 0 := by
  have hprev : cubic_bezier cpB0 cpB1 cpB2 cpB3 (0.5 - 0.01) = ⟨0, 1.47, 1.47⟩ := by
    rw [bezierB_eval]
    ext <;> simp <;> norm_num
  have hnext : cubic_bezier cpB0 cpB1 cpB2 cpB3 (0.5 + 0.01) = ⟨0, 1.53, 1.53⟩ := by
    rw [bezierB_eval]
    ext <;> simp <;> norm_num
  have hdiff : cubic_bezier cpB0 cpB1 cpB2 cpB3 (0.5 - 0.01) -
      cubic_bezier cpB0 cpB1 cpB2 cpB3 (0.5 + 0.01) = ⟨0, -0.06, -0.06⟩ := by
    rw [hprev, hnext]
    ext <;> simp <;> norm_num
  have hdne : (⟨0, -0.06, -0.06⟩ : Vec3) ≠ 0 := by
    intro hz
    have hy := congrArg Vec3.y hz
    simp at hy
    norm_num at hy
  refine ⟨?_, ?_, ?_⟩
  · rw [hprev, hnext]
    intro hcontra
    have hy := congrArg Vec3.y hcontra
    norm_num at hy
  · rw [hdiff]
    have hc : Vec3.cross Vec3.Y ⟨0, -0.06, -0.06⟩ = ⟨-0.06, 0, 0⟩ := by
      ext <;> simp [Vec3.cross, Vec3.Y] <;> norm_num
    rw [hc]
    intro hz
    have hx := congrArg Vec3.x hz
    simp at hx
    norm_num at hx
  · unfold frame_local_z Vec3.normalize
    rw [hdiff, Vec3.dot_smul_right]
    have hdy : Vec3.dot Vec3.Y ⟨0, -0.06, -0.06⟩ = -0.06 := by
      simp [Vec3.dot, Vec3.Y]
    rw [hdy]
    have hpos : 0 < Vec3.norm ⟨0, -0.06, -0.06⟩ := Vec3.norm_pos _ hdne
    have hneg : (Vec3.norm ⟨0, -0.06, -0.06⟩)⁻¹ * (-0.06) < 0 :=
      mul_neg_of_pos_of_neg (inv_pos.mpr hpos) (by norm_num)
    exact ne_of_lt hneg

/-- Claim C6 as amended: wherever the central difference is nonzero and the
tangent is not parallel to world up, the frame vectors right, up and tangent
are each unit length and right is orthogonal to both up and tangent; up need
not be orthogonal to tangent, so the triple is not orthonormal in general. -/
theorem c6_frame_properties (p1 p2 p3 p4 : Vec3) (t : ℝ)
    (h1 : cubic_bezier p1 p2 p3 p4 (t - 0.01) ≠ cubic_bezier p1 p2 p3 p4 (t + 0.01))
    (h2 : Vec3.cross Vec3.Y (cubic_bezier p1 p2 p3 p4 (t - 0.01) -
      cubic_bezier p1 p2 p3 p4 (t + 0.01)) ≠ 0) :
    Vec3.norm (frame_local_z p1 p2 p3 p4 t) = 1 ∧
    Vec3.norm Vec3.Y = 1 ∧
    Vec3.norm (frame_local_x p1 p2 p3 p4 t) = 1 ∧
    Vec3.dot (frame_local_x p1 p2 p3 p4 t) Vec3.Y = 0 ∧
    Vec3.dot (frame_local_x p1 p2 p3 p4 t) (frame_local_z p1 p2 p3 p4 t) = 0 := by
  have hdne : cubic_bezier p1 p2 p3 p4 (t - 0.01) -
      cubic_bezier p1 p2 p3 p4 (t + 0.01) ≠ 0 := by
    intro hz
    exact h1 ((Vec3.sub_eq_zero_iff _ _).mp hz)
  have hzunit : Vec3.norm (frame_local_z p1 p2 p3 p4 t) = 1 := by
    unfold frame_local_z
    exact Vec3.norm_normalize _ hdne
  have hyunit : Vec3.norm Vec3.Y = 1 := by
    have hdot : Vec3.dot Vec3.Y Vec3.Y = 1 := by simp [Vec3.dot, Vec3.Y]
    unfold Vec3.norm
    rw [hdot, Real.sqrt_one]
  have hcross : Vec3.cross Vec3.Y (frame_local_z p1 p2 p3 p4 t) ≠ 0 := by
    unfold frame_local_z Vec3.normalize
    rw [Vec3.cross_smul_right, Ne,
      Vec3.smul_eq_zero_iff _ _ (inv_ne_zero (ne_of_gt (Vec3.norm_pos _ hdne)))]
    exact h2
  have hxunit : Vec3.norm (frame_local_x p1 p2 p3 p4 t) = 1 := by
    unfold frame_local_x
    exact Vec3.norm_normalize _ hcross
  have hxy : Vec3.dot (frame_local_x p1 p2 p3 p4 t) Vec3.Y = 0 := by
    unfold frame_local_x
    rw [Vec3.dot_normalize_left, Vec3.dot_cross_left]
    ring
  have hxz : Vec3.dot (frame_local_x p1 p2 p3 p4 t) (frame_local_z p1 p2 p3 p4 t) = 0 := by
    unfold frame_local_x
    rw [Vec3.dot_normalize_left, Vec3.dot_cross_right]
    ring
  exact ⟨hzunit, hyunit, hxunit, hxy, hxz⟩

/-- Witness for the amended C6 on the Scenario A spline at t = 0.5. -/
theorem c6_witness :
    Vec3.norm (frame_local_z cpA0 cpA1 cpA2 cpA3 0.5) = 1 ∧
    Vec3.norm Vec3.Y = 1 ∧
    Vec3.norm (frame_local_x cpA0 cpA1 cpA2 cpA3 0.5) = 1 ∧
    Vec3.dot (frame_local_x cpA0 cpA1 cpA2 cpA3 0.5) Vec3.Y = 0 ∧
    Vec3.dot (frame_local_x cpA0 cpA1 cpA2 cpA3 0.5) (frame_local_z cpA0 cpA1 cpA2 cpA3 0.5) = 0 := by
  apply c6_frame_properties
  · rw [bezierA_eval, bezierA_eval]
    intro hcontra
    have hx := congrArg Vec3.x hcontra
    simp at hx
    norm_num at hx
  · rw [bezierA_eval, bezierA_eval]
    have hd : (⟨9 * (0.5 - 0.01), 0, 0⟩ - ⟨9 * (0.5 + 0.01), 0, 0⟩ : Vec3) = ⟨-0.18, 0, 0⟩ := by
      ext <;> simp <;> norm_num
    rw [hd]
    have hc : Vec3.cross Vec3.Y ⟨-0.18, 0, 0⟩ = ⟨0, 0, 0.18⟩ := by
      ext <;> simp [Vec3.cross, Vec3.Y] <;> norm_num
    rw [hc]
    intro hz
    have hzc := congrArg Vec3.z hz
    simp at hzc
    norm_num at hzc
